import Mathlib

/-!
Verification of the Harness workspace-preparation plugin (src/main.py).

The development shallowly embeds the action-processing pipeline of the
plugin: Python strings are Lean strings, JSON values are the inductive
type JValue, Python dicts are association lists that preserve insertion
order, Python exceptions are the PyErr error type threaded through
Except, the remote tag API is an abstract transport function from the
attempt number to an outcome, and the json.loads decoder of the standard
library is an abstract decode parameter.  Network calls and backoff
sleeps are recorded as an explicit event trace.
-/

/-! Python string primitives, modelled character-wise over the string data. -/

/-- Embeds Python str.strip: drop Unicode whitespace from both ends. -/
def pyStrip (s : String) : String :=
  String.mk (((s.data.dropWhile Char.isWhitespace).reverse.dropWhile Char.isWhitespace).reverse)

/-- Embeds the Python emptiness test `not s or s.strip() == ""`: true iff
every character of s is whitespace (in particular for the empty string). -/
def pyStripEmpty (s : String) : Bool :=
  s.data.all Char.isWhitespace

/-- Helper for pySplitOnComma: split a character list on commas.  Mirrors
Python str.split(",") which yields one (possibly empty) group per
comma-separated segment. -/
def pySplitOnCommaAux : List Char → List (List Char)
  | [] => [[]]
  | c :: rest =>
    match pySplitOnCommaAux rest with
    | [] => [[]]
    | g :: gs => if c = ',' then [] :: g :: gs else (c :: g) :: gs

/-- Embeds Python s.split(","). -/
def pySplitOnComma (s : String) : List String :=
  (pySplitOnCommaAux s.data).map String.mk

/-- Embeds Python s.startswith(pre). -/
def pyStartsWith (s pre : String) : Bool :=
  pre.data.isPrefixOf s.data

/-- Embeds the Python substring test `needle in hay`. -/
def strContains (hay needle : String) : Bool :=
  (List.range (hay.data.length + 1)).any fun i => needle.data.isPrefixOf (hay.data.drop i)

/-- Embeds Python str.lower character-wise on the ASCII range (the
resource-name inputs handled by the plugin). -/
def pyLowerChar (c : Char) : Char :=
  if 65 ≤ c.toNat ∧ c.toNat ≤ 90 then Char.ofNat (c.toNat + 32) else c

/-- Embeds Python s.lower(). -/
def pyLower (s : String) : String :=
  String.mk (s.data.map pyLowerChar)

/-- Embeds Python s.replace(a, b) for single-character patterns, which
replaces every occurrence and is therefore character-wise. -/
def pyReplaceChar (a b : Char) (s : String) : String :=
  String.mk (s.data.map fun c => if c = a then b else c)

/-- Embeds normalize_name from src/main.py: lowercase and replace
hyphens with underscores. -/
def normalize_name (name : String) : String :=
  pyReplaceChar '-' '_' (pyLower name)

/-! JSON values and Python dict operations. -/

/-- JSON values as produced by json.loads.  Objects are association
lists in insertion order, matching Python dict iteration order; objects
decoded from JSON have no duplicate keys. -/
inductive JValue where
  | null
  | bool (b : Bool)
  | num (n : Int)
  | str (s : String)
  | arr (xs : List JValue)
  | obj (fields : List (String × JValue))

/-- Embeds Python dict.get(k, dflt). -/
def dGet (fs : List (String × JValue)) (k : String) (dflt : JValue) : JValue :=
  match fs.lookup k with
  | some v => v
  | none => dflt

/-- Embeds Python dict assignment d[k] = v: replace in place when the
key is present, append otherwise. -/
def dictSet (fs : List (String × JValue)) (k : String) (v : JValue) : List (String × JValue) :=
  if fs.any (fun kv => kv.1 = k) then fs.map (fun kv => if kv.1 = k then (k, v) else kv)
  else fs ++ [(k, v)]

/-- Embeds Python truthiness of a JSON value. -/
def pyTruthy : JValue → Bool
  | .null => false
  | .bool b => b
  | .num n => n != 0
  | .str s => s != ""
  | .arr xs => !xs.isEmpty
  | .obj fs => !fs.isEmpty

/-- Single-quote character, used by the Python repr of strings. -/
def squote : String := String.singleton (Char.ofNat 39)

mutual
/-- Embeds Python repr for JSON values (for strings without special
characters, which is all the plugin ever stringifies). -/
def pyRepr : JValue → String
  | .null => "None"
  | .bool true => "True"
  | .bool false => "False"
  | .num n => toString n
  | .str s => squote ++ s ++ squote
  | .arr xs => "[" ++ pyReprArr xs ++ "]"
  | .obj fs => "\x7b" ++ pyReprObj fs ++ "\x7d"

/-- Comma-separated repr of list elements. -/
def pyReprArr : List JValue → String
  | [] => ""
  | [x] => pyRepr x
  | x :: y :: xs => pyRepr x ++ ", " ++ pyReprArr (y :: xs)

/-- Comma-separated repr of dict items. -/
def pyReprObj : List (String × JValue) → String
  | [] => ""
  | [kv] => squote ++ kv.1 ++ squote ++ ": " ++ pyRepr kv.2
  | kv :: y :: xs => squote ++ kv.1 ++ squote ++ ": " ++ pyRepr kv.2 ++ ", " ++ pyReprObj (y :: xs)
end

/-- Embeds Python str(v) for a JSON value: identity on strings,
repr-like rendering otherwise. -/
def pyStr : JValue → String
  | .str s => s
  | .null => "None"
  | .bool true => "True"
  | .bool false => "False"
  | .num n => toString n
  | .arr xs => pyRepr (.arr xs)
  | .obj fs => pyRepr (.obj fs)

/-- Lower-case hexadecimal digit. -/
def hexDigit (n : Nat) : Char :=
  if n < 10 then Char.ofNat (48 + n) else Char.ofNat (87 + n)

/-- Four-digit hexadecimal rendering, used by the JSON \u escapes. -/
def hex4 (n : Nat) : String :=
  String.mk [hexDigit (n / 4096 % 16), hexDigit (n / 256 % 16), hexDigit (n / 16 % 16), hexDigit (n % 16)]

/-- JSON escape of one character as produced by json.dumps with its
default ensure_ascii=True. -/
def jsonEscapeChar (c : Char) : String :=
  if c = '"' then "\\\""
  else if c = '\\' then "\\\\"
  else if c = '\n' then "\\n"
  else if c = '\t' then "\\t"
  else if c = '\r' then "\\r"
  else if c = Char.ofNat 8 then "\\b"
  else if c = Char.ofNat 12 then "\\f"
  else if c.toNat < 32 ∨ c.toNat > 126 then
    if c.toNat < 65536 then "\\u" ++ hex4 c.toNat
    else "\\u" ++ hex4 (55296 + (c.toNat - 65536) / 1024) ++ "\\u" ++ hex4 (56320 + (c.toNat - 65536) % 1024)
  else String.singleton c

/-- JSON escape of a string body. -/
def jsonEscape (s : String) : String :=
  String.join (s.data.map jsonEscapeChar)

mutual
/-- Embeds json.dumps(v, separators=(",", ":")): compact JSON
serialization in insertion order. -/
def dumps : JValue → String
  | .null => "null"
  | .bool true => "true"
  | .bool false => "false"
  | .num n => toString n
  | .str s => "\"" ++ jsonEscape s ++ "\""
  | .arr xs => "[" ++ dumpsArr xs ++ "]"
  | .obj fs => "\x7b" ++ dumpsObj fs ++ "\x7d"

/-- Comma-separated serialization of array elements. -/
def dumpsArr : List JValue → String
  | [] => ""
  | [x] => dumps x
  | x :: y :: xs => dumps x ++ "," ++ dumpsArr (y :: xs)

/-- Comma-separated serialization of object fields. -/
def dumpsObj : List (String × JValue) → String
  | [] => ""
  | [kv] => "\"" ++ jsonEscape kv.1 ++ "\":" ++ dumps kv.2
  | kv :: y :: xs => "\"" ++ jsonEscape kv.1 ++ "\":" ++ dumps kv.2 ++ "," ++ dumpsObj (y :: xs)
end

/-! Python exceptions relevant to the plugin. -/

/-- Python exceptions that the embedded code can raise.  ValueError is
the validation-error type of the plugin; the others surface as fatal
errors in main. -/
inductive PyErr where
  | valueError (msg : String)
  | indexError
  | keyError
  | typeError
  | attributeError
deriving Repr, DecidableEq

/-- Embeds Python sequence indexing l[i] including negative indices. -/
def pyIndex {α : Type} (l : List α) (i : Int) : Except PyErr α :=
  let j : Int := if i < 0 then (l.length : Int) + i else i
  if 0 ≤ j ∧ j < (l.length : Int) then
    match l.get? j.toNat with
    | some x => .ok x
    | none => .error .indexError
  else .error .indexError

/-- Embeds Python len() on a JSON value. -/
def pyLen : JValue → Except PyErr Nat
  | .arr xs => .ok xs.length
  | .obj fs => .ok fs.length
  | .str s => .ok s.length
  | _ => .error .typeError

/-- Embeds Python v[i] for an integer index on a JSON value: list
indexing, string indexing, KeyError on string-keyed dicts, TypeError
otherwise. -/
def pyIndexJ : JValue → Int → Except PyErr JValue
  | .arr xs, i => pyIndex xs i
  | .str s, i =>
    match pyIndex s.data i with
    | .ok c => .ok (.str (String.singleton c))
    | .error e => .error e
  | .obj _, _ => .error .keyError
  | _, _ => .error .typeError

/-! ConfigParser: safe_json_parse from src/main.py. -/

/-- Message of the size-limit ValueError.  In the source the inner
ValueError raised by the pre-validation is caught by the generic
handler of safe_json_parse and re-wrapped, hence the prefix. -/
def sizeErrorMsg (config_name : String) : String :=
  "Unexpected error parsing " ++ config_name ++ ": " ++ config_name ++ " exceeds maximum size (1MB)"

/-- Embeds safe_json_parse from src/main.py.  The decode parameter
abstracts json.loads of the Python standard library: some v for a
well-formed document, none for malformed input. -/
def safe_json_parse (decode : String → Option JValue) (json_str : String) (config_name : String) :
    Except PyErr JValue :=
  if pyStripEmpty json_str then .ok (.obj [])
  else if json_str.length > 1024 * 1024 then .error (.valueError (sizeErrorMsg config_name))
  else
    match decode json_str with
    | some v => .ok v
    | none => .error (.valueError ("Invalid JSON in " ++ config_name))

/-! TagFetcher: fetch_tags_from_api from src/main.py. -/

/-- Outcome of one HTTP attempt, abstracting the urllib transport:
a 200 response with its decoded JSON body, a non-200 response that
returned without raising, an HTTPError with its status code, or the
network, body-decoding, timeout and unexpected failures that the
source handles in separate except clauses. -/
inductive ApiOutcome where
  | ok200 (data : JValue)
  | okOther (status : Nat)
  | httpError (code : Nat)
  | urlError
  | jsonError
  | timeoutErr
  | otherError

/-- Observable events of a tag fetch: one call per transport attempt
and one sleep per backoff wait, in order. -/
inductive FetchEvent where
  | call (attempt : Nat)
  | sleep (seconds : Nat)
deriving Repr, DecidableEq

/-- Embeds Python dict assignment on a string-valued map. -/
def assocSet (m : List (String × String)) (k v : String) : List (String × String) :=
  if m.any (fun kv => kv.1 = k) then m.map (fun kv => if kv.1 = k then (k, v) else kv)
  else m ++ [(k, v)]

/-- Embeds the tag coercion loop of fetch_tags_from_api: keep keys that
are non-blank strings, coerce values with str(), mapping null to the
empty string. -/
def coerceTags (tags : List (String × JValue)) : List (String × String) :=
  tags.foldl
    (fun acc kv =>
      if pyStripEmpty kv.1 then acc
      else assocSet acc kv.1 (match kv.2 with | .null => "" | v => pyStr v))
    []

/-- Embeds the body of the 200-response branch of fetch_tags_from_api
applied to the decoded body: some m when the branch returns the map m,
none when it raises (caught by the generic handler, hence retried).
Follows the truthiness test `data and len(data) > 0`, the shape checks
on properties and tags, and the tag coercion of the source. -/
def attemptSuccess : JValue → Option (List (String × String))
  | .arr [] => some []
  | .arr (x :: _) =>
    match x with
    | .obj fs =>
      match dGet fs "properties" (.obj []) with
      | .obj props =>
        (match dGet props "tags" (.obj []) with
         | .obj tags => some (coerceTags tags)
         | _ => some [])
      | _ => some []
    | _ => none
  | .obj [] => some []
  | .obj (_ :: _) => none
  | .str s => if s = "" then some [] else none
  | .null => some []
  | .bool false => some []
  | .bool true => none
  | .num n => if n = 0 then some [] else none

/-- True for the outcomes on which the attempt loop of
fetch_tags_from_api continues to the next attempt: network errors,
body-decode errors, timeouts, unexpected exceptions, HTTP errors
outside the 4xx range, and 200 responses whose extraction raises. -/
def retryableOutcome : ApiOutcome → Bool
  | .ok200 d => (attemptSuccess d).isNone
  | .okOther _ => false
  | .httpError code => !(decide (400 ≤ code ∧ code < 500))
  | .urlError => true
  | .jsonError => true
  | .timeoutErr => true
  | .otherError => true

/-- Attempt loop of fetch_tags_from_api: attempt is the current
zero-based attempt index, fuel the number of attempts left.  A 4xx
HTTPError breaks out of the loop (falling through to the empty-map
return, with no backoff); retryable failures sleep 2 ^ attempt seconds
before the next attempt, except after the final one. -/
def fetch_loop (transport : Nat → ApiOutcome) : Nat → Nat → List (String × String) × List FetchEvent
  | _, 0 => ([], [])
  | attempt, fuel + 1 =>
    let retry : List (String × String) × List FetchEvent :=
      if fuel = 0 then ([], [FetchEvent.call attempt])
      else
        let r := fetch_loop transport (attempt + 1) fuel
        (r.1, FetchEvent.call attempt :: FetchEvent.sleep (2 ^ attempt) :: r.2)
    match transport attempt with
    | .ok200 data =>
      match attemptSuccess data with
      | some m => (m, [FetchEvent.call attempt])
      | none => retry
    | .okOther _ => ([], [FetchEvent.call attempt])
    | .httpError code =>
      if 400 ≤ code ∧ code < 500 then ([], [FetchEvent.call attempt]) else retry
    | .urlError => retry
    | .jsonError => retry
    | .timeoutErr => retry
    | .otherError => retry

/-- Embeds fetch_tags_from_api from src/main.py over the abstract
transport, returning the tag map together with the trace of calls and
backoff sleeps.  A blank asset id short-circuits to the empty map with
no network call. -/
def fetch_tags_from_api (transport : Nat → ApiOutcome) (asset_id : String)
    (retry_attempts : Nat := 3) : List (String × String) × List FetchEvent :=
  if pyStripEmpty asset_id then ([], [])
  else fetch_loop transport 0 retry_attempts

/-- Tag map as a JSON value, as assigned into the terraform vars by the
create workflow. -/
def tagsToJValue (tags : List (String × String)) : JValue :=
  .obj (tags.map fun kv => (kv.1, .str kv.2))

/-! ActionProcessor: the three workflows of src/main.py. -/

/-- Keys stripped from the selected entry by process_update_action. -/
def update_strip_keys : List String := ["module_name", "cloud_project", "type", "show_advanced"]

/-- Keys stripped from the selected entry by process_create_action. -/
def create_strip_keys : List String := ["module_name", "connector", "type", "show_advanced"]

/-- Filter comprehension of process_update_action. -/
def update_filter (workspace_vars : List (String × JValue)) : List (String × JValue) :=
  workspace_vars.filter fun kv => !(update_strip_keys.contains kv.1)

/-- Filter comprehension of process_create_action. -/
def create_filter (workspace_vars : List (String × JValue)) : List (String × JValue) :=
  workspace_vars.filter fun kv => !(create_strip_keys.contains kv.1)

/-- Component selection shared verbatim by the delete and update
workflows (src/main.py lines 580-586 and 612-618): split the component
list on commas, trim each entry, reject `iteration >= len`, select the
entry at iteration. -/
def component_select (component_name_list : String) (iteration : Int) :
    Except PyErr String :=
  let component_names := (pySplitOnComma component_name_list).map pyStrip
  if (component_names.length : Int) ≤ iteration then
    .error (.valueError ("Iteration " ++ toString iteration ++
      " out of range for component names (max: " ++ toString ((component_names.length : Int) - 1) ++ ")"))
  else pyIndex component_names iteration

/-- Embeds process_delete_action from src/main.py: component selection,
then publish the selected component as resource name and entity id. -/
def process_delete_action (component_name_list : String) (iteration : Int) :
    Except PyErr (List (String × String)) :=
  match component_select component_name_list iteration with
  | .error e => .error e
  | .ok current => .ok [("RESOURCE_NAME", current), ("ENTITY_ID", current)]

/-- Entry selection of process_update_action: config parsing, entries
extraction (a .get call requiring a dict), entries bound check and
entry selection at the same iteration (requiring a dict for the later
.get calls). -/
def entry_select (decode : String → Option JValue) (iteration : Int)
    (resource_config_str : String) : Except PyErr (List (String × JValue)) :=
  match safe_json_parse decode resource_config_str "resource configuration" with
  | .error e => .error e
  | .ok (.obj cfg) =>
    let entries := dGet cfg "entries" (.arr [])
    match pyLen entries with
    | .error e => .error e
    | .ok elen =>
      if (elen : Int) ≤ iteration then
        .error (.valueError ("Iteration " ++ toString iteration ++
          " out of range for entries (max: " ++ toString ((elen : Int) - 1) ++ ")"))
      else
        match pyIndexJ entries iteration with
        | .error e => .error e
        | .ok (.obj ws) => .ok ws
        | .ok _ => .error .attributeError
  | .ok _ => .error .attributeError

/-- Validation and selection prefix of process_update_action, in source
order: component selection first, then entry selection. -/
def update_select (decode : String → Option JValue) (component_name_list : String)
    (iteration : Int) (resource_config_str : String) :
    Except PyErr (String × List (String × JValue)) :=
  match component_select component_name_list iteration with
  | .error e => .error e
  | .ok current =>
    match entry_select decode iteration resource_config_str with
    | .error e => .error e
    | .ok ws => .ok (current, ws)

/-- Embeds process_update_action from src/main.py.  Returns the exported
variables (empty on error, since every export is after the last
fallible statement) together with the network event trace. -/
def process_update_action (decode : String → Option JValue) (transport : Nat → ApiOutcome)
    (component_name_list : String) (iteration : Int)
    (repeat_item asset_id resource_config_str cloud_project : String) :
    Except PyErr (List (String × String)) × List FetchEvent :=
  match update_select decode component_name_list iteration resource_config_str with
  | .error e => (.error e, [])
  | .ok (current, workspace_vars) =>
    let connector := pyReplaceChar '-' '_' cloud_project
    let module_name := dGet workspace_vars "module_name" (.str "")
    let filtered_terraform_vars := update_filter workspace_vars
    let terraform_vars_json := dumps (.obj filtered_terraform_vars)
    let fetched := fetch_tags_from_api transport asset_id 3
    (.ok [("RESOURCE_NAME", current), ("ENTITY_ID", current), ("WORKSPACE_NAME", repeat_item),
          ("ASSET_ID", asset_id), ("TERRAFORM_VARS", terraform_vars_json),
          ("CONNECTOR", connector), ("MODULE_NAME", pyStr module_name)], fetched.2)

/-- Python equality of a JSON value with a string, as used by the
membership test `repeat_item in item` when item is a list. -/
def jvEqStr : JValue → String → Bool
  | .str t, s => t = s
  | _, _ => false

/-- Search loop of process_create_action over a list item_map: for each
item, the membership test `repeat_item in item` followed by
item[repeat_item].  Non-dict items reproduce the Python errors: `in` on
ints raises TypeError, and indexing a list or string with a string key
raises TypeError when the membership test succeeds. -/
def find_in_items : List JValue → String → Except PyErr (Option JValue)
  | [], _ => .ok none
  | item :: rest, repeat_item =>
    match item with
    | .obj fs =>
      if fs.any (fun kv => kv.1 = repeat_item) then .ok (some (dGet fs repeat_item .null))
      else find_in_items rest repeat_item
    | .arr ys =>
      if ys.any (fun y => jvEqStr y repeat_item) then .error .typeError
      else find_in_items rest repeat_item
    | .str s =>
      if strContains s repeat_item then .error .typeError
      else find_in_items rest repeat_item
    | _ => .error .typeError

/-- Search loop of process_create_action when item_map decoded to a
dict: iteration yields the keys, the membership test is a substring
test, and a hit raises TypeError from indexing a string with a string. -/
def find_in_keys : List String → String → Except PyErr (Option JValue)
  | [], _ => .ok none
  | k :: rest, repeat_item =>
    if strContains k repeat_item then .error .typeError
    else find_in_keys rest repeat_item

/-- Search loop of process_create_action when item_map decoded to a
string: iteration yields one-character strings. -/
def find_in_chars : List Char → String → Except PyErr (Option JValue)
  | [], _ => .ok none
  | c :: rest, repeat_item =>
    if strContains (String.singleton c) repeat_item then .error .typeError
    else find_in_chars rest repeat_item

/-- Embeds the `for item in item_map` search of process_create_action. -/
def find_workspace_vars (item_map : JValue) (repeat_item : String) :
    Except PyErr (Option JValue) :=
  match item_map with
  | .arr xs => find_in_items xs repeat_item
  | .obj fs => find_in_keys (fs.map Prod.fst) repeat_item
  | .str s => find_in_chars s.data repeat_item
  | _ => .error .typeError

/-- Validation prefix of process_create_action: parse the item map,
locate the workspace entry, reject absent or falsy entries with the
workspace-not-found ValueError, and require a dict for the later .get
calls. -/
def create_core (decode : String → Option JValue) (repeat_item item_map_str : String) :
    Except PyErr (List (String × JValue)) :=
  match safe_json_parse decode item_map_str "item map" with
  | .error e => .error e
  | .ok item_map =>
    match find_workspace_vars item_map repeat_item with
    | .error e => .error e
    | .ok none =>
      .error (.valueError ("Workspace " ++ squote ++ repeat_item ++ squote ++ " not found in item_map"))
    | .ok (some workspace_vars) =>
      if pyTruthy workspace_vars then
        match workspace_vars with
        | .obj ws => .ok ws
        | _ => .error .attributeError
      else
        .error (.valueError ("Workspace " ++ squote ++ repeat_item ++ squote ++ " not found in item_map"))

/-- Embeds process_create_action from src/main.py.  Returns the exported
variables (empty on error) together with the network event trace. -/
def process_create_action (decode : String → Option JValue) (transport : Nat → ApiOutcome)
    (repeat_item item_map_str asset_id cloud_project deployment_name : String) (iteration : Int) :
    Except PyErr (List (String × String)) × List FetchEvent :=
  match create_core decode repeat_item item_map_str with
  | .error e => (.error e, [])
  | .ok workspace_vars =>
    let connector := pyReplaceChar '-' '_' cloud_project
    let module_name := dGet workspace_vars "module_name" (.str "")
    let resource_name := dGet workspace_vars "resource_name" (.str "")
    let resource_type := dGet workspace_vars "type" (.str "")
    let filtered := create_filter workspace_vars
    let fetched := fetch_tags_from_api transport asset_id 3
    let filtered_with_tags := dictSet filtered "cdk_std_tags" (tagsToJValue fetched.1)
    let terraform_vars_json := dumps (.obj filtered_with_tags)
    let resource_name_raw :=
      pyStr resource_type ++ "_" ++ pyStr resource_name ++ "_" ++ deployment_name ++ toString iteration
    let entity_id_raw :=
      pyStr resource_type ++ "_" ++ pyStr resource_name ++ "_" ++ deployment_name ++ toString iteration
    let resource_name_normalized := normalize_name resource_name_raw
    let entity_id_normalized := normalize_name entity_id_raw
    (.ok [("WORKSPACE_NAME", repeat_item), ("ASSET_ID", asset_id),
          ("TERRAFORM_VARS", terraform_vars_json), ("CONNECTOR", connector),
          ("MODULE_NAME", pyStr module_name), ("RESOURCE_NAME", resource_name_normalized),
          ("ENTITY_ID", entity_id_normalized)], fetched.2)

/-! Entry point: main from src/main.py. -/

/-- Valid values of the action discriminator. -/
def valid_actions : List String := ["create", "update", "delete"]

/-- Digits-only parse helper for pyParseInt. -/
def pyParseIntDigits (ds : List Char) : Option Nat :=
  match ds with
  | [] => none
  | _ =>
    if ds.all (fun c => decide (48 ≤ c.toNat ∧ c.toNat ≤ 57)) then
      some (ds.foldl (fun acc c => acc * 10 + (c.toNat - 48)) 0)
    else none

/-- Embeds Python int(s) on decimal strings: optional surrounding
whitespace, optional sign, at least one digit. -/
def pyParseInt (s : String) : Option Int :=
  match (pyStrip s).data with
  | '-' :: rest => (pyParseIntDigits rest).map (fun n => -(n : Int))
  | '+' :: rest => (pyParseIntDigits rest).map (fun n => (n : Int))
  | ds => (pyParseIntDigits ds).map (fun n => (n : Int))

/-- Embeds the iteration parsing of main: int(iteration_str), falling
back to 0 for unresolved Harness expressions and raising ValueError
otherwise. -/
def getIteration (iteration_str : String) : Except PyErr Int :=
  match pyParseInt iteration_str with
  | some i => .ok i
  | none =>
    if pyStartsWith iteration_str "<+" then .ok 0
    else .error (.valueError ("Invalid iteration value: " ++ iteration_str))

/-- Pipeline inputs of main, after the environment defaults of
os.environ.get have been applied. -/
structure PyEnv where
  action : String
  component_name : String
  iteration : String
  repeat_item : String
  asset_id : String
  resource_config : String
  cloud_project : String
  item_map : String
  deployment_name : String
  org_identifier : String
  project_identifier : String
  resource_owner : String

/-- Result of one run of main: the process exit code, the outputs
recorded by the output manager, and the network event trace. -/
structure MainResult where
  exitCode : Nat
  outputs : List (String × String)
  events : List FetchEvent
deriving Repr, DecidableEq

/-- Last recorded value for a key, as os.environ.get observes after the
output manager exported it. -/
def lookupLast (outs : List (String × String)) (k : String) : Option String :=
  outs.reverse.lookup k

/-- Action validation and dispatch of main: reject invalid actions that
are not Harness expressions, parse the iteration, and run the workflow
selected by the action (create is the default branch, as in the
source). -/
def main_core (decode : String → Option JValue) (transport : Nat → ApiOutcome) (env : PyEnv) :
    Except PyErr (List (String × String)) × List FetchEvent :=
  if ¬ (env.action ∈ valid_actions) ∧ pyStartsWith env.action "<+" = false then
    (.error (.valueError ("Invalid action " ++ squote ++ env.action ++ squote)), [])
  else if env.action = "delete" then
    match getIteration env.iteration with
    | .error e => (.error e, [])
    | .ok iteration => (process_delete_action env.component_name iteration, [])
  else if env.action = "update" then
    match getIteration env.iteration with
    | .error e => (.error e, [])
    | .ok iteration =>
      process_update_action decode transport env.component_name iteration env.repeat_item
        env.asset_id env.resource_config env.cloud_project
  else
    match getIteration env.iteration with
    | .error e => (.error e, [])
    | .ok iteration =>
      process_create_action decode transport env.repeat_item env.item_map env.asset_id
        env.cloud_project env.deployment_name iteration

/-- Embeds main from src/main.py on a process started with a clean
environment: dispatch the workflow, then on success append the common
exports (RESOURCE_OWNER, ENTITY_SCOPE, ENTITY_REF built from the
ENTITY_ID output), and map a ValueError to exit code 2 and any other
exception to exit code 1. -/
def main_run (decode : String → Option JValue) (transport : Nat → ApiOutcome) (env : PyEnv) :
    MainResult :=
  match main_core decode transport env with
  | (.error (.valueError _), evs) => ⟨2, [], evs⟩
  | (.error _, evs) => ⟨1, [], evs⟩
  | (.ok outs, evs) =>
    let entity_scope := "account." ++ env.org_identifier ++ "." ++ env.project_identifier
    let entity_id := (lookupLast outs "ENTITY_ID").getD ""
    let entity_ref := if entity_id ≠ "" then entity_scope ++ "/" ++ entity_id else entity_scope
    ⟨0, outs ++ [("RESOURCE_OWNER", env.resource_owner), ("ENTITY_SCOPE", entity_scope),
                 ("ENTITY_REF", entity_ref)], evs⟩

/-! Concrete decoders and transports used by the closed theorems below.
Each decoder stands for json.loads on the one document the theorem
feeds it. -/

/-- Decoder that fails on every input (json.loads on malformed text). -/
def decNone : String → Option JValue := fun _ => none

/-- Decoder for the end-to-end create example of the spec:
item_map = [ws1 mapsto (module_name vpc, resource_name net1, type network, extra x)]. -/
def decCreateExample : String → Option JValue := fun _ =>
  some (.arr [.obj [("ws1", .obj [("module_name", .str "vpc"), ("resource_name", .str "net1"),
    ("type", .str "network"), ("extra", .str "x")])]])

/-- Transport whose 200 response has an empty body array (the empty tag
response of the spec example). -/
def transportEmpty : Nat → ApiOutcome := fun _ => ApiOutcome.ok200 (.arr [])

/-- Transport that always fails with a network error. -/
def transportUrlError : Nat → ApiOutcome := fun _ => ApiOutcome.urlError

/-- Decoder for a resource configuration with an empty entries list. -/
def decEntriesEmpty : String → Option JValue := fun _ => some (.obj [("entries", .arr [])])

/-- Decoder for a resource configuration whose single entry carries a
connector key next to the resource name. -/
def decEntryWithConnector : String → Option JValue := fun _ =>
  some (.obj [("entries", .arr [.obj [("connector", .str "x"), ("resource_name", .str "r")]])])

/-- Decoder for a resource configuration with one plain entry. -/
def decEntryPlain : String → Option JValue := fun _ =>
  some (.obj [("entries", .arr [.obj [("resource_name", .str "r")]])])

/-- Transport that answers every attempt with one tag env=prod. -/
def transportEnvProd : Nat → ApiOutcome := fun _ =>
  ApiOutcome.ok200 (.arr [.obj [("properties", .obj [("tags", .obj [("env", .str "prod")])])]])

/-- Transport that fails with a network error twice, then delivers the
tag env=prod. -/
def transportFailTwice : Nat → ApiOutcome := fun n =>
  if n < 2 then ApiOutcome.urlError
  else ApiOutcome.ok200 (.arr [.obj [("properties", .obj [("tags", .obj [("env", .str "prod")])])]])

/-- Transport that answers 404 on every attempt. -/
def transport404 : Nat → ApiOutcome := fun _ => ApiOutcome.httpError 404

/-- Pipeline environment with an invalid action value. -/
def envBadAction : PyEnv :=
  ⟨"bogus", "a,b", "0", "ws", "id", "", "cp", "", "dep", "org", "proj", "owner"⟩

/-- Input one character over the 1 MiB size limit of safe_json_parse. -/
def bigJsonInput : String := String.mk (List.replicate 1048577 'a')

/-- Replacement of hyphens by underscores, the second stage of
normalize_name. -/
def normRep : Char → Char := fun c => if c = '-' then '_' else c

/-- Pipeline environment for a delete with an out-of-range iteration. -/
def envDeleteOutOfRange : PyEnv :=
  ⟨"delete", "a,b", "9", "ws", "id", "", "cp", "", "dep", "org", "proj", "owner"⟩

/-- Workspace entry selected by the create example. -/
def exampleWs : List (String × JValue) :=
  [("module_name", .str "vpc"), ("resource_name", .str "net1"), ("type", .str "network"),
   ("extra", .str "x")]

/-- Outputs of the create example run. -/
def exampleCreateOuts : List (String × String) :=
  [("WORKSPACE_NAME", "ws1"), ("ASSET_ID", "a1"),
   ("TERRAFORM_VARS", "\x7b\"resource_name\":\"net1\",\"extra\":\"x\",\"cdk_std_tags\":\x7b\x7d\x7d"),
   ("CONNECTOR", "cp"), ("MODULE_NAME", "vpc"), ("RESOURCE_NAME", "network_net1_dep0"),
   ("ENTITY_ID", "network_net1_dep0")]

/-- Workspace entry selected by the plain update run. -/
def plainUpdateWs : List (String × JValue) := [("resource_name", .str "r")]

/-- Outputs of the plain update run with a blank asset id. -/
def plainUpdateOuts : List (String × String) :=
  [("RESOURCE_NAME", "a"), ("ENTITY_ID", "a"), ("WORKSPACE_NAME", "ws"), ("ASSET_ID", ""),
   ("TERRAFORM_VARS", "\x7b\"resource_name\":\"r\"\x7d"), ("CONNECTOR", "cp"), ("MODULE_NAME", "")]

/-! Helper lemmas. -/

/-- Conversion of a valid code point through Char.ofNat. -/
theorem char_toNat_ofNat (n : Nat) (h : Nat.isValidChar n) : (Char.ofNat n).toNat = n := by
  simp only [Char.ofNat, h, dif_pos]
  rfl

/-- Lower-casing never yields an upper-case ASCII letter. -/
theorem pyLowerChar_not_upper (c : Char) :
    ¬ (65 ≤ (pyLowerChar c).toNat ∧ (pyLowerChar c).toNat ≤ 90) := by
  unfold pyLowerChar
  by_cases h : 65 ≤ c.toNat ∧ c.toNat ≤ 90
  · rw [if_pos h, char_toNat_ofNat _ (Or.inl (by omega))]
    omega
  · rw [if_neg h]
    exact h

/-- Lower-casing a character is idempotent. -/
theorem pyLowerChar_idem (c : Char) : pyLowerChar (pyLowerChar c) = pyLowerChar c := by
  have h := pyLowerChar_not_upper c
  revert h
  generalize pyLowerChar c = d
  intro h
  unfold pyLowerChar
  rw [if_neg h]

/-- Per-character idempotence of the normalize_name pipeline. -/
theorem normalize_char_idem (c : Char) :
    normRep (pyLowerChar (normRep (pyLowerChar c))) = normRep (pyLowerChar c) := by
  unfold normRep
  by_cases h : pyLowerChar c = '-'
  · rw [if_pos h]
    have h2 : pyLowerChar '_' = '_' := by decide
    rw [h2, if_neg (by decide : ('_' : Char) ≠ '-')]
  · rw [if_neg h, pyLowerChar_idem, if_neg h]

/-- C9: normalize_name maps Foo-Bar to foo_bar, and normalize_name is
idempotent: applying it twice equals applying it once, for every
string. -/
theorem c9_normalize_idempotent :
    normalize_name "Foo-Bar" = "foo_bar" ∧
    ∀ x : String, normalize_name (normalize_name x) = normalize_name x := by
  constructor
  · rfl
  · intro x
    show String.mk ((((x.data.map pyLowerChar).map normRep).map pyLowerChar).map normRep) =
         String.mk ((x.data.map pyLowerChar).map normRep)
    simp only [List.map_map]
    refine congrArg String.mk (List.map_congr_left fun a _ => ?_)
    show normRep (pyLowerChar (normRep (pyLowerChar a))) = normRep (pyLowerChar a)
    exact normalize_char_idem a

/-! Lemmas about the attempt loop of fetch_tags_from_api. -/

/-- One retryable failure with further fuel left: record the call and
the backoff sleep of 2 ^ attempt seconds, then continue. -/
theorem fetch_loop_step (t : Nat → ApiOutcome) (attempt fuel : Nat) (hf : fuel ≠ 0)
    (h : retryableOutcome (t attempt) = true) :
    fetch_loop t attempt (fuel + 1) =
      ((fetch_loop t (attempt + 1) fuel).1,
        FetchEvent.call attempt :: FetchEvent.sleep (2 ^ attempt) :: (fetch_loop t (attempt + 1) fuel).2) := by
  rcases ho : t attempt with data | s | code | _ | _ | _ | _
  · have hn : attemptSuccess data = none := by
      rw [ho] at h
      simpa [retryableOutcome, Option.isNone_iff_eq_none] using h
    simp [fetch_loop, ho, hn, hf]
  · rw [ho] at h
    simp [retryableOutcome] at h
  · have hc : ¬ (400 ≤ code ∧ code < 500) := by
      rw [ho] at h
      simp [retryableOutcome] at h
      omega
    simp [fetch_loop, ho, hc, hf]
  · simp [fetch_loop, ho, hf]
  · simp [fetch_loop, ho, hf]
  · simp [fetch_loop, ho, hf]
  · simp [fetch_loop, ho, hf]

/-- One retryable failure on the final attempt: the loop ends and the
fetch returns the empty map with no backoff. -/
theorem fetch_loop_last (t : Nat → ApiOutcome) (attempt : Nat)
    (h : retryableOutcome (t attempt) = true) :
    fetch_loop t attempt 1 = ([], [FetchEvent.call attempt]) := by
  rcases ho : t attempt with data | s | code | _ | _ | _ | _
  · have hn : attemptSuccess data = none := by
      rw [ho] at h
      simpa [retryableOutcome, Option.isNone_iff_eq_none] using h
    simp [fetch_loop, ho, hn]
  · rw [ho] at h
    simp [retryableOutcome] at h
  · have hc : ¬ (400 ≤ code ∧ code < 500) := by
      rw [ho] at h
      simp [retryableOutcome] at h
      omega
    simp [fetch_loop, ho, hc]
  · simp [fetch_loop, ho]
  · simp [fetch_loop, ho]
  · simp [fetch_loop, ho]
  · simp [fetch_loop, ho]

/-- A 200 response whose extraction succeeds returns its tag map at
once. -/
theorem fetch_loop_success (t : Nat → ApiOutcome) (attempt fuel : Nat) (data : JValue)
    (m : List (String × String)) (ht : t attempt = .ok200 data)
    (hm : attemptSuccess data = some m) :
    fetch_loop t attempt (fuel + 1) = (m, [FetchEvent.call attempt]) := by
  simp [fetch_loop, ht, hm]

/-- A 4xx client error breaks out of the loop at once: no retry, no
backoff, empty map. -/
theorem fetch_loop_4xx (t : Nat → ApiOutcome) (attempt fuel code : Nat)
    (ht : t attempt = .httpError code) (hc : 400 ≤ code ∧ code < 500) :
    fetch_loop t attempt (fuel + 1) = ([], [FetchEvent.call attempt]) := by
  simp [fetch_loop, ht, hc]

/-- C5: with maxAttempts = 3 over the abstract transport, a transport
that fails with a network error on attempts 0 and 1 and delivers a
well-formed 200 response on attempt 2 produces exactly the trace
call 0, sleep 1s, call 1, sleep 2s, call 2 (backoff 2 ^ attempt) and
returns the third attempt's tag map; and a transport that answers 404
on the first attempt produces a single call with no backoff and the
empty map. -/
theorem c5_fetch_retry_backoff (t : Nat → ApiOutcome) (a : String) (data : JValue)
    (m : List (String × String)) (ha : pyStripEmpty a = false)
    (h0 : t 0 = .urlError) (h1 : t 1 = .urlError) (h2 : t 2 = .ok200 data)
    (hm : attemptSuccess data = some m) :
    fetch_tags_from_api t a 3 =
      (m, [FetchEvent.call 0, FetchEvent.sleep 1, FetchEvent.call 1, FetchEvent.sleep 2,
           FetchEvent.call 2]) ∧
    ∀ t4 a4, t4 0 = .httpError 404 → pyStripEmpty a4 = false →
      fetch_tags_from_api t4 a4 3 = ([], [FetchEvent.call 0]) := by
  constructor
  · rw [fetch_tags_from_api, if_neg (by simp [ha])]
    have r0 : retryableOutcome (t 0) = true := by rw [h0]; rfl
    have r1 : retryableOutcome (t 1) = true := by rw [h1]; rfl
    have e2 : fetch_loop t 2 1 = (m, [FetchEvent.call 2]) :=
      fetch_loop_success t 2 0 data m h2 hm
    have e1 : fetch_loop t 1 2 =
        ((fetch_loop t 2 1).1,
          FetchEvent.call 1 :: FetchEvent.sleep 2 :: (fetch_loop t 2 1).2) :=
      fetch_loop_step t 1 1 (by omega) r1
    have e0 : fetch_loop t 0 3 =
        ((fetch_loop t 1 2).1,
          FetchEvent.call 0 :: FetchEvent.sleep 1 :: (fetch_loop t 1 2).2) :=
      fetch_loop_step t 0 2 (by omega) r0
    rw [e0, e1, e2]
  · intro t4 a4 h4 ha4
    rw [fetch_tags_from_api, if_neg (by simp [ha4])]
    exact fetch_loop_4xx t4 0 2 404 h4 (by omega)

/-- Witness for c5_fetch_retry_backoff at the concrete transports. -/
theorem c5_fetch_retry_backoff_witness :
    fetch_tags_from_api transportFailTwice "asset" 3 =
      ([("env", "prod")], [FetchEvent.call 0, FetchEvent.sleep 1, FetchEvent.call 1,
        FetchEvent.sleep 2, FetchEvent.call 2]) ∧
    fetch_tags_from_api transport404 "asset" 3 = ([], [FetchEvent.call 0]) := by
  have h := c5_fetch_retry_backoff transportFailTwice "asset"
    (.arr [.obj [("properties", .obj [("tags", .obj [("env", .str "prod")])])]])
    [("env", "prod")] (by decide) (by rfl) (by rfl) (by rfl) (by rfl)
  exact ⟨h.1, h.2 transport404 "asset" (by rfl) (by decide)⟩

/-- C6: the tag fetch is total over the abstract transport (its result
type carries no error component): a blank asset id yields the empty map
with an empty event trace, hence no network call; and when every
attempt fails with a retryable failure the fetch returns the empty map
after exhausting its three attempts instead of raising. -/
theorem c6_fetch_total (t : Nat → ApiOutcome) (a : String) :
    (pyStripEmpty a = true → fetch_tags_from_api t a 3 = ([], [])) ∧
    ((∀ n, retryableOutcome (t n) = true) → (fetch_tags_from_api t a 3).1 = []) := by
  constructor
  · intro hb
    rw [fetch_tags_from_api, if_pos hb]
  · intro hr
    by_cases hb : pyStripEmpty a = true
    · rw [fetch_tags_from_api, if_pos hb]
    · rw [fetch_tags_from_api, if_neg hb]
      have e2 : fetch_loop t 2 1 = ([], [FetchEvent.call 2]) := fetch_loop_last t 2 (hr 2)
      have e1 : fetch_loop t 1 2 =
          ((fetch_loop t 2 1).1,
            FetchEvent.call 1 :: FetchEvent.sleep 2 :: (fetch_loop t 2 1).2) :=
        fetch_loop_step t 1 1 (by omega) (hr 1)
      have e0 : fetch_loop t 0 3 =
          ((fetch_loop t 1 2).1,
            FetchEvent.call 0 :: FetchEvent.sleep 1 :: (fetch_loop t 1 2).2) :=
        fetch_loop_step t 0 2 (by omega) (hr 0)
      rw [e0, e1, e2]

/-- Witness for c6_fetch_total: blank asset id, and a transport that
always fails with a network error. -/
theorem c6_fetch_total_witness :
    fetch_tags_from_api transportUrlError "  " 3 = ([], []) ∧
    (fetch_tags_from_api transportUrlError "asset" 3).1 = [] := by
  exact ⟨(c6_fetch_total transportUrlError "  ").1 (by decide),
         (c6_fetch_total transportUrlError "asset").2 (fun n => by rfl)⟩

/-! Lemmas about Python indexing and the shared component selection. -/

/-- pyIndex at a valid non-negative index returns the listed element. -/
theorem pyIndex_nonneg {α : Type} (l : List α) (i : Int) (c : α) (h0 : 0 ≤ i)
    (hc : l.get? i.toNat = some c) : pyIndex l i = .ok c := by
  obtain ⟨hn, _⟩ := List.get?_eq_some.mp hc
  simp only [pyIndex]
  rw [if_neg (by omega : ¬ i < 0), if_pos (⟨h0, by omega⟩ : 0 ≤ i ∧ i < (l.length : Int)), hc]

/-- pyIndex at a valid negative index returns the element counted from
the end of the list. -/
theorem pyIndex_neg {α : Type} (l : List α) (i : Int) (c : α) (hneg : i < 0)
    (hge : -(l.length : Int) ≤ i) (hc : l.get? ((l.length : Int) + i).toNat = some c) :
    pyIndex l i = .ok c := by
  simp only [pyIndex]
  rw [if_pos hneg,
      if_pos (⟨by omega, by omega⟩ :
        0 ≤ (l.length : Int) + i ∧ (l.length : Int) + i < (l.length : Int)), hc]

/-- Successful component selection means the out-of-range check passed
and pyIndex produced the component. -/
theorem component_select_ok (cl : String) (it : Int) (cur : String)
    (h : component_select cl it = .ok cur) :
    pyIndex ((pySplitOnComma cl).map pyStrip) it = .ok cur := by
  simp only [component_select] at h
  split at h
  · simp at h
  · exact h

/-- Successful update selection splits into a successful component
selection and a successful entry selection. -/
theorem update_select_ok (d : String → Option JValue) (cl : String) (it : Int) (cfg : String)
    (cur : String) (ws : List (String × JValue))
    (h : update_select d cl it cfg = .ok (cur, ws)) :
    component_select cl it = .ok cur ∧ entry_select d it cfg = .ok ws := by
  unfold update_select at h
  rcases h1 : component_select cl it with e | c <;> rw [h1] at h
  · simp at h
  · rcases h2 : entry_select d it cfg with e | w <;> rw [h2] at h
    · simp at h
    · simp at h
      exact ⟨by rw [h.1], by rw [h.2]⟩

/-- C3: for every delete input whose iteration is a valid zero-based
index into the comma-split component list, the workflow publishes the
trimmed component at that position as both RESOURCE_NAME and
ENTITY_ID; for every iteration at or beyond the list length it raises
the out-of-range ValueError and returns no outputs at all. -/
theorem c3_delete_selects_component (cl : String) (it : Int) (c : String) :
    ((0 : Int) ≤ it → ((pySplitOnComma cl).map pyStrip).get? it.toNat = some c →
      process_delete_action cl it = .ok [("RESOURCE_NAME", c), ("ENTITY_ID", c)]) ∧
    ((((pySplitOnComma cl).map pyStrip).length : Int) ≤ it →
      process_delete_action cl it = .error (.valueError ("Iteration " ++ toString it ++
        " out of range for component names (max: " ++
        toString ((((pySplitOnComma cl).map pyStrip).length : Int) - 1) ++ ")"))) := by
  constructor
  · intro h0 hc
    obtain ⟨hn, _⟩ := List.get?_eq_some.mp hc
    unfold process_delete_action
    have hsel : component_select cl it = .ok c := by
      simp only [component_select]
      rw [if_neg (by omega : ¬ (((pySplitOnComma cl).map pyStrip).length : Int) ≤ it),
          pyIndex_nonneg _ it c h0 hc]
    rw [hsel]
  · intro hge
    unfold process_delete_action
    have hsel : component_select cl it = .error (.valueError ("Iteration " ++ toString it ++
        " out of range for component names (max: " ++
        toString ((((pySplitOnComma cl).map pyStrip).length : Int) - 1) ++ ")")) := by
      simp only [component_select]
      rw [if_pos hge]
    rw [hsel]

/-- Witness for c3_delete_selects_component: a three-component list at
iteration 1, and a two-component list at iteration 5. -/
theorem c3_delete_selects_component_witness :
    process_delete_action "web, db ,cache" 1 = .ok [("RESOURCE_NAME", "db"), ("ENTITY_ID", "db")] ∧
    process_delete_action "a,b" 5 =
      .error (.valueError "Iteration 5 out of range for component names (max: 1)") := by
  exact ⟨(c3_delete_selects_component "web, db ,cache" 1 "db").1 (by decide) (by rfl),
         (c3_delete_selects_component "a,b" 5 "db").2 (by decide)⟩

/-! Lemmas for the 1 MiB input of the C8 witness, proved without
evaluating the megabyte-long string. -/

/-- The oversized input is not blank. -/
theorem bigJsonInput_not_blank : pyStripEmpty bigJsonInput = false := by
  have h : ¬ (pyStripEmpty bigJsonInput = true) := by
    show ¬ ((List.replicate 1048577 'a').all Char.isWhitespace = true)
    rw [List.all_eq_true]
    intro hall
    exact absurd (hall 'a' (List.mem_replicate.mpr ⟨by omega, rfl⟩)) (by decide)
  exact Bool.eq_false_iff.mpr h

/-- The oversized input exceeds the 1 MiB limit. -/
theorem bigJsonInput_length : bigJsonInput.length > 1024 * 1024 := by
  show (List.replicate 1048577 'a').length > 1024 * 1024
  rw [List.length_replicate]
  omega

/-- C8: safe_json_parse returns an empty object without error on blank
input; on non-blank input longer than 1 MiB it fails with the
size-limit ValueError and its result does not depend on the decoder,
so no decoding is attempted; on malformed input within the limit it
fails with a ValueError carrying the supplied label; and on well-formed
input within the limit it returns the decoded value unchanged. -/
theorem c8_safe_json_parse_cases (decode decode2 : String → Option JValue) (s name : String)
    (v : JValue) :
    (pyStripEmpty s = true → safe_json_parse decode s name = .ok (.obj [])) ∧
    (pyStripEmpty s = false → s.length > 1024 * 1024 →
      safe_json_parse decode s name = .error (.valueError (sizeErrorMsg name)) ∧
      safe_json_parse decode s name = safe_json_parse decode2 s name) ∧
    (pyStripEmpty s = false → s.length ≤ 1024 * 1024 → decode s = none →
      safe_json_parse decode s name = .error (.valueError ("Invalid JSON in " ++ name))) ∧
    (pyStripEmpty s = false → s.length ≤ 1024 * 1024 → decode s = some v →
      safe_json_parse decode s name = .ok v) := by
  refine ⟨fun hb => ?_, fun hb hl => ⟨?_, ?_⟩, fun hb hl hd => ?_, fun hb hl hd => ?_⟩
  · rw [safe_json_parse, if_pos hb]
  · rw [safe_json_parse, if_neg (by simp [hb]), if_pos hl]
  · rw [safe_json_parse, if_neg (by simp [hb]), if_pos hl,
        safe_json_parse, if_neg (by simp [hb]), if_pos hl]
  · rw [safe_json_parse, if_neg (by simp [hb]), if_neg (by omega), hd]
  · rw [safe_json_parse, if_neg (by simp [hb]), if_neg (by omega), hd]

/-- Witness for c8_safe_json_parse_cases: one concrete input per
branch, including the decoder-independence of the size-limit branch. -/
theorem c8_safe_json_parse_cases_witness :
    safe_json_parse decNone "" "item map" = .ok (.obj []) ∧
    safe_json_parse decNone bigJsonInput "item map" =
      .error (.valueError (sizeErrorMsg "item map")) ∧
    safe_json_parse decNone bigJsonInput "item map" =
      safe_json_parse decCreateExample bigJsonInput "item map" ∧
    safe_json_parse decNone "zz" "resource configuration" =
      .error (.valueError "Invalid JSON in resource configuration") ∧
    safe_json_parse decEntriesEmpty "x" "item map" = .ok (.obj [("entries", .arr [])]) := by
  refine ⟨(c8_safe_json_parse_cases decNone decNone "" "item map" .null).1 (by decide),
          ((c8_safe_json_parse_cases decNone decCreateExample bigJsonInput "item map" .null).2.1
            bigJsonInput_not_blank bigJsonInput_length).1,
          ((c8_safe_json_parse_cases decNone decCreateExample bigJsonInput "item map" .null).2.1
            bigJsonInput_not_blank bigJsonInput_length).2,
          (c8_safe_json_parse_cases decNone decNone "zz" "resource configuration" .null).2.2.1
            (by decide) (by decide) rfl,
          (c8_safe_json_parse_cases decEntriesEmpty decNone "x" "item map"
            (.obj [("entries", .arr [])])).2.2.2 (by decide) (by decide) rfl⟩

/-! Lemmas about the key filters of the two workflows. -/

/-- A filtered list satisfies its own filter predicate everywhere. -/
theorem filter_all (l : List (String × JValue)) (p : String × JValue → Bool) :
    (l.filter p).all p = true := by
  rw [List.all_eq_true]
  intro kv hm
  exact (List.mem_filter.mp hm).2

/-- Dict assignment preserves a key predicate that the assigned pair
also satisfies. -/
theorem dictSet_all (l : List (String × JValue)) (p : String × JValue → Bool) (k : String)
    (v : JValue) (hl : l.all p = true) (hk : p (k, v) = true) :
    (dictSet l k v).all p = true := by
  rw [List.all_eq_true] at hl ⊢
  intro kv hm
  unfold dictSet at hm
  split at hm
  · obtain ⟨kv0, hkv0, heq⟩ := List.mem_map.mp hm
    by_cases hcase : kv0.1 = k
    · rw [if_pos hcase] at heq
      rw [← heq]
      exact hk
    · rw [if_neg hcase] at heq
      rw [← heq]
      exact hl kv0 hkv0
  · rcases List.mem_append.mp hm with hmem | hmem
    · exact hl kv hmem
    · rw [List.mem_singleton.mp hmem]
      exact hk

/-- Assignment of the tag key into the filtered create vars keeps every
key outside the create strip list. -/
theorem create_filter_with_tags_all (ws : List (String × JValue)) (tags : List (String × String)) :
    (dictSet (create_filter ws) "cdk_std_tags" (tagsToJValue tags)).all
      (fun kv => !(create_strip_keys.contains kv.1)) = true :=
  dictSet_all (create_filter ws) (fun kv => !(create_strip_keys.contains kv.1)) "cdk_std_tags"
    (tagsToJValue tags) (filter_all ws _) rfl

/-- C1 fails as stated: the update workflow does not strip the
connector key.  On an update whose selected entry carries a connector
field, the published TERRAFORM_VARS blob contains the key connector. -/
theorem c1_counterexample :
    (process_update_action decEntryWithConnector transportUrlError "a" 0 "ws" "" "cfg" "cp").1 =
      .ok [("RESOURCE_NAME", "a"), ("ENTITY_ID", "a"), ("WORKSPACE_NAME", "ws"), ("ASSET_ID", ""),
           ("TERRAFORM_VARS", "\x7b\"connector\":\"x\",\"resource_name\":\"r\"\x7d"),
           ("CONNECTOR", "cp"), ("MODULE_NAME", "")] ∧
    strContains "\x7b\"connector\":\"x\",\"resource_name\":\"r\"\x7d" "\"connector\"" = true := by
  exact ⟨rfl, by decide⟩

/-- C1 amended: the published TERRAFORM_VARS blob of the update
workflow is the serialization of the selected entry with module_name,
cloud_project, type and show_advanced stripped (connector is not
stripped there), and the blob of the create workflow is the
serialization of the selected entry with module_name, connector, type
and show_advanced stripped (cloud_project is not stripped there) plus
the tag key. -/
theorem c1_filtered_vars_strip_keys (d : String → Option JValue) (t : Nat → ApiOutcome)
    (cl : String) (it : Int) (ri ai cfg cp : String) (cur : String)
    (ws : List (String × JValue)) (outs : List (String × String))
    (im dn : String) (itc : Int) (wsc : List (String × JValue)) (outsc : List (String × String)) :
    (update_select d cl it cfg = .ok (cur, ws) →
      (process_update_action d t cl it ri ai cfg cp).1 = .ok outs →
      outs.lookup "TERRAFORM_VARS" = some (dumps (.obj (update_filter ws))) ∧
      (update_filter ws).all (fun kv => !(update_strip_keys.contains kv.1)) = true) ∧
    (create_core d ri im = .ok wsc →
      (process_create_action d t ri im ai cp dn itc).1 = .ok outsc →
      outsc.lookup "TERRAFORM_VARS" =
        some (dumps (.obj (dictSet (create_filter wsc) "cdk_std_tags"
          (tagsToJValue (fetch_tags_from_api t ai 3).1)))) ∧
      (dictSet (create_filter wsc) "cdk_std_tags"
        (tagsToJValue (fetch_tags_from_api t ai 3).1)).all
          (fun kv => !(create_strip_keys.contains kv.1)) = true) := by
  constructor
  · intro hsel hok
    unfold process_update_action at hok
    rw [hsel] at hok
    simp at hok
    constructor
    · rw [← hok]
      rfl
    · exact filter_all ws _
  · intro hcore hok
    unfold process_create_action at hok
    rw [hcore] at hok
    simp at hok
    constructor
    · rw [← hok]
      rfl
    · exact create_filter_with_tags_all wsc _

/-- Witness for c1_filtered_vars_strip_keys on the plain update run and
the create example run. -/
theorem c1_filtered_vars_strip_keys_witness :
    (plainUpdateOuts.lookup "TERRAFORM_VARS" =
        some (dumps (.obj (update_filter plainUpdateWs))) ∧
      (update_filter plainUpdateWs).all (fun kv => !(update_strip_keys.contains kv.1)) = true) ∧
    (exampleCreateOuts.lookup "TERRAFORM_VARS" =
        some (dumps (.obj (dictSet (create_filter exampleWs) "cdk_std_tags"
          (tagsToJValue (fetch_tags_from_api transportEmpty "a1" 3).1)))) ∧
      (dictSet (create_filter exampleWs) "cdk_std_tags"
        (tagsToJValue (fetch_tags_from_api transportEmpty "a1" 3).1)).all
          (fun kv => !(create_strip_keys.contains kv.1)) = true) := by
  refine ⟨(c1_filtered_vars_strip_keys decEntryPlain transportUrlError "a" 0 "ws" "" "cfg" "cp"
      "a" plainUpdateWs plainUpdateOuts "" "" 0 [] []).1 rfl rfl,
    (c1_filtered_vars_strip_keys decCreateExample transportEmpty "" 0 "ws1" "a1" "" "cp"
      "" [] [] "im" "dep" 0 exampleWs exampleCreateOuts).2 rfl rfl⟩

/-- C2 fails as stated: the update workflow does not merge the fetched
tag set into the published blob.  With a transport that yields the tag
env=prod, the update run publishes TERRAFORM_VARS without any
cdk_std_tags key while the fetch did return that tag. -/
theorem c2_counterexample :
    fetch_tags_from_api transportEnvProd "id1" 3 = ([("env", "prod")], [FetchEvent.call 0]) ∧
    process_update_action decEntryPlain transportEnvProd "a" 0 "ws" "id1" "cfg" "cp" =
      (.ok [("RESOURCE_NAME", "a"), ("ENTITY_ID", "a"), ("WORKSPACE_NAME", "ws"),
            ("ASSET_ID", "id1"), ("TERRAFORM_VARS", "\x7b\"resource_name\":\"r\"\x7d"),
            ("CONNECTOR", "cp"), ("MODULE_NAME", "")], [FetchEvent.call 0]) ∧
    strContains "\x7b\"resource_name\":\"r\"\x7d" "cdk_std_tags" = false := by
  exact ⟨rfl, rfl, by decide⟩

/-- C2 amended: only the create workflow merges the fetched tag set,
under the fixed key cdk_std_tags; the update workflow serializes the
blob before the fetch and publishes it unchanged, so its published
outputs are independent of the transport. -/
theorem c2_tag_merge (d : String → Option JValue) (t t2 : Nat → ApiOutcome)
    (cl : String) (it : Int) (ri ai cfg cp im dn : String) (itc : Int)
    (wsc : List (String × JValue)) (outsc : List (String × String)) :
    (process_update_action d t cl it ri ai cfg cp).1 =
      (process_update_action d t2 cl it ri ai cfg cp).1 ∧
    (create_core d ri im = .ok wsc →
      (process_create_action d t ri im ai cp dn itc).1 = .ok outsc →
      outsc.lookup "TERRAFORM_VARS" =
        some (dumps (.obj (dictSet (create_filter wsc) "cdk_std_tags"
          (tagsToJValue (fetch_tags_from_api t ai 3).1))))) := by
  constructor
  · unfold process_update_action
    rcases hsel : update_select d cl it cfg with e | ⟨cur, ws⟩ <;> simp
  · intro hcore hok
    unfold process_create_action at hok
    rw [hcore] at hok
    simp at hok
    rw [← hok]
    rfl

/-- Witness for c2_tag_merge: transport-independence of the plain
update run, and the tag merge of the create example run. -/
theorem c2_tag_merge_witness :
    (process_update_action decEntryPlain transportEnvProd "a" 0 "ws" "id1" "cfg" "cp").1 =
      (process_update_action decEntryPlain transportUrlError "a" 0 "ws" "id1" "cfg" "cp").1 ∧
    exampleCreateOuts.lookup "TERRAFORM_VARS" =
      some (dumps (.obj (dictSet (create_filter exampleWs) "cdk_std_tags"
        (tagsToJValue (fetch_tags_from_api transportEmpty "a1" 3).1)))) := by
  refine ⟨(c2_tag_merge decEntryPlain transportEnvProd transportUrlError "a" 0 "ws" "id1" "cfg"
      "cp" "" "" 0 [] []).1,
    (c2_tag_merge decCreateExample transportEmpty transportEmpty "" 0 "ws1" "a1" "" "cp" "im"
      "dep" 0 exampleWs exampleCreateOuts).2 rfl rfl⟩

/-- C4: whenever the create workflow succeeds, it publishes identical
RESOURCE_NAME and ENTITY_ID values, both equal to the normalization
(lower-case, hyphens to underscores) of type_resourceName_deploymentName
followed by the iteration; and the end-to-end example of the spec
evaluates to entity id network_net1_dep0 with the expected filtered
blob. -/
theorem c4_create_identifiers (d : String → Option JValue) (t : Nat → ApiOutcome)
    (ri im ai cp dn : String) (it : Int) (outs : List (String × String))
    (ws : List (String × JValue)) :
    ((process_create_action d t ri im ai cp dn it).1 = .ok outs →
      outs.lookup "RESOURCE_NAME" = outs.lookup "ENTITY_ID") ∧
    ((process_create_action d t ri im ai cp dn it).1 = .ok outs →
      create_core d ri im = .ok ws →
      outs.lookup "RESOURCE_NAME" =
        some (normalize_name (pyStr (dGet ws "type" (.str "")) ++ "_" ++
          pyStr (dGet ws "resource_name" (.str "")) ++ "_" ++ dn ++ toString it))) ∧
    process_create_action decCreateExample transportEmpty "ws1" "im" "a1" "cp" "dep" 0 =
      (.ok exampleCreateOuts, [FetchEvent.call 0]) := by
  refine ⟨fun hok => ?_, fun hok hcore => ?_, rfl⟩
  · unfold process_create_action at hok
    rcases hc : create_core d ri im with e | w <;> rw [hc] at hok
    · simp at hok
    · simp at hok
      rw [← hok]
      rfl
  · unfold process_create_action at hok
    rw [hcore] at hok
    simp at hok
    rw [← hok]
    rfl

/-- Witness for c4_create_identifiers on the create example run. -/
theorem c4_create_identifiers_witness :
    exampleCreateOuts.lookup "RESOURCE_NAME" = exampleCreateOuts.lookup "ENTITY_ID" ∧
    exampleCreateOuts.lookup "RESOURCE_NAME" =
      some (normalize_name (pyStr (dGet exampleWs "type" (.str "")) ++ "_" ++
        pyStr (dGet exampleWs "resource_name" (.str "")) ++ "_" ++ "dep" ++ toString (0 : Int))) := by
  refine ⟨(c4_create_identifiers decCreateExample transportEmpty "ws1" "im" "a1" "cp" "dep" 0
      exampleCreateOuts exampleWs).1 rfl,
    (c4_create_identifiers decCreateExample transportEmpty "ws1" "im" "a1" "cp" "dep" 0
      exampleCreateOuts exampleWs).2.1 rfl rfl⟩

/-- C10 fails as stated: on component list a,b (length 2) with
iteration -1 (so -len <= -1 < 0) and a resource configuration whose
entries list is empty, the update workflow raises IndexError from
entries[-1] instead of publishing the component. -/
theorem c10_counterexample :
    ((pySplitOnComma "a,b").map pyStrip).length = 2 ∧
    (process_update_action decEntriesEmpty transportUrlError "a,b" (-1) "ws" "" "cfg" "cp").1 =
      .error .indexError := by
  exact ⟨rfl, rfl⟩

/-- C10 amended: for every negative iteration n with -len <= n < 0 the
out-of-range check (which only tests iteration >= length) passes;
delete publishes the component at len + n, and update, whenever it
completes, publishes the component at len + n as well — but update can
still raise a non-validation IndexError from the entries selection
when the entries list is shorter than -n (see c10_counterexample). -/
theorem c10_negative_iteration (cl : String) (it : Int) (c : String)
    (d : String → Option JValue) (t : Nat → ApiOutcome) (ri ai cfg cp : String)
    (outs : List (String × String)) :
    (it < 0 → -(((pySplitOnComma cl).map pyStrip).length : Int) ≤ it →
      ((pySplitOnComma cl).map pyStrip).get?
          ((((pySplitOnComma cl).map pyStrip).length : Int) + it).toNat = some c →
      process_delete_action cl it = .ok [("RESOURCE_NAME", c), ("ENTITY_ID", c)]) ∧
    (it < 0 → -(((pySplitOnComma cl).map pyStrip).length : Int) ≤ it →
      ((pySplitOnComma cl).map pyStrip).get?
          ((((pySplitOnComma cl).map pyStrip).length : Int) + it).toNat = some c →
      (process_update_action d t cl it ri ai cfg cp).1 = .ok outs →
      outs.lookup "RESOURCE_NAME" = some c ∧ outs.lookup "ENTITY_ID" = some c) := by
  constructor
  · intro hneg hge hc
    unfold process_delete_action
    have hsel : component_select cl it = .ok c := by
      simp only [component_select]
      rw [if_neg (by omega), pyIndex_neg _ it c hneg hge hc]
    rw [hsel]
  · intro hneg hge hc hok
    unfold process_update_action at hok
    rcases hsel : update_select d cl it cfg with e | ⟨cur, ws⟩ <;> rw [hsel] at hok
    · simp at hok
    · simp at hok
      obtain ⟨h1, _⟩ := update_select_ok d cl it cfg cur ws hsel
      have h2 := component_select_ok cl it cur h1
      have h3 : pyIndex ((pySplitOnComma cl).map pyStrip) it = .ok c :=
        pyIndex_neg _ it c hneg hge hc
      rw [h2] at h3
      have hcc : cur = c := Except.ok.inj h3
      rw [← hok, hcc]
      exact ⟨rfl, rfl⟩

/-- Witness for c10_negative_iteration: delete and update on a two
component list at iteration -1, with a one-entry configuration for
update. -/
theorem c10_negative_iteration_witness :
    process_delete_action "a,b" (-1) = .ok [("RESOURCE_NAME", "b"), ("ENTITY_ID", "b")] ∧
    ([("RESOURCE_NAME", "b"), ("ENTITY_ID", "b"), ("WORKSPACE_NAME", "ws"), ("ASSET_ID", ""),
      ("TERRAFORM_VARS", "\x7b\"resource_name\":\"r\"\x7d"), ("CONNECTOR", "cp"),
      ("MODULE_NAME", "")].lookup "RESOURCE_NAME" = some "b" ∧
     [("RESOURCE_NAME", "b"), ("ENTITY_ID", "b"), ("WORKSPACE_NAME", "ws"), ("ASSET_ID", ""),
      ("TERRAFORM_VARS", "\x7b\"resource_name\":\"r\"\x7d"), ("CONNECTOR", "cp"),
      ("MODULE_NAME", "")].lookup "ENTITY_ID" = some "b") := by
  refine ⟨(c10_negative_iteration "a,b" (-1) "b" decNone transportUrlError "" "" "" ""
      []).1 (by decide) (by decide) (by rfl),
    (c10_negative_iteration "a,b" (-1) "b" decEntryPlain transportUrlError "ws" "" "cfg" "cp"
      [("RESOURCE_NAME", "b"), ("ENTITY_ID", "b"), ("WORKSPACE_NAME", "ws"), ("ASSET_ID", ""),
       ("TERRAFORM_VARS", "\x7b\"resource_name\":\"r\"\x7d"), ("CONNECTOR", "cp"),
       ("MODULE_NAME", "")]).2 (by decide) (by decide) (by rfl) (by rfl)⟩

/-! Lemmas showing that workflow failures happen before any network
call: an erroring workflow has an empty event trace. -/

/-- Update failures occur before the tag fetch. -/
theorem process_update_action_error_events (d : String → Option JValue) (t : Nat → ApiOutcome)
    (cl : String) (it : Int) (ri ai cfg cp : String) (e : PyErr)
    (h : (process_update_action d t cl it ri ai cfg cp).1 = .error e) :
    (process_update_action d t cl it ri ai cfg cp).2 = [] := by
  unfold process_update_action at h ⊢
  rcases hsel : update_select d cl it cfg with e2 | ⟨cur, ws⟩
  · rfl
  · rw [hsel] at h
    simp at h

/-- Create failures occur before the tag fetch. -/
theorem process_create_action_error_events (d : String → Option JValue) (t : Nat → ApiOutcome)
    (ri im ai cp dn : String) (it : Int) (e : PyErr)
    (h : (process_create_action d t ri im ai cp dn it).1 = .error e) :
    (process_create_action d t ri im ai cp dn it).2 = [] := by
  unfold process_create_action at h ⊢
  rcases hc : create_core d ri im with e2 | ws
  · rfl
  · rw [hc] at h
    simp at h

/-- A failing run of main makes no network call. -/
theorem main_core_error_events (d : String → Option JValue) (t : Nat → ApiOutcome) (env : PyEnv)
    (e : PyErr) (h : (main_core d t env).1 = .error e) : (main_core d t env).2 = [] := by
  unfold main_core at h ⊢
  by_cases hv : ¬ (env.action ∈ valid_actions) ∧ pyStartsWith env.action "<+" = false
  · rw [if_pos hv]
  · rw [if_neg hv] at h ⊢
    by_cases hd : env.action = "delete"
    · rw [if_pos hd]
      rcases getIteration env.iteration with e2 | i
      · rfl
      · rfl
    · rw [if_neg hd] at h ⊢
      by_cases hu : env.action = "update"
      · rw [if_pos hu] at h ⊢
        revert h
        rcases getIteration env.iteration with e2 | i <;> intro h
        · rfl
        · exact process_update_action_error_events d t env.component_name i env.repeat_item
            env.asset_id env.resource_config env.cloud_project e h
      · rw [if_neg hu] at h ⊢
        revert h
        rcases getIteration env.iteration with e2 | i <;> intro h
        · rfl
        · exact process_create_action_error_events d t env.repeat_item env.item_map env.asset_id
            env.cloud_project env.deployment_name i e h

/-- C7: a ValueError anywhere in the dispatched workflow (missing or
invalid input, bad action value, out-of-range iteration, malformed
JSON, workspace not found) makes the run exit with code 2 before any
network call and with no outputs recorded — never a partial output
set; conversely exit code 2 only arises from such a ValueError; and an
action outside the valid set that is not a Harness expression is
rejected that way. -/
theorem c7_validation_aborts (d : String → Option JValue) (t : Nat → ApiOutcome) (env : PyEnv)
    (m : String) :
    ((main_core d t env).1 = .error (.valueError m) → main_run d t env = ⟨2, [], []⟩) ∧
    ((main_run d t env).exitCode = 2 → ∃ m2, (main_core d t env).1 = .error (.valueError m2)) ∧
    (¬ (env.action ∈ valid_actions) → pyStartsWith env.action "<+" = false →
      main_run d t env = ⟨2, [], []⟩) := by
  refine ⟨fun h => ?_, fun h => ?_, fun h1 h2 => ?_⟩
  · have hev := main_core_error_events d t env (.valueError m) h
    unfold main_run
    rcases hmc : main_core d t env with ⟨res, evs⟩
    rw [hmc] at h hev
    have hres : res = .error (.valueError m) := h
    have hevs : evs = [] := hev
    rw [hres, hevs]
  · unfold main_run at h
    rcases hmc : main_core d t env with ⟨res, evs⟩
    rw [hmc] at h
    rcases res with e | outs
    · rcases e with m2 | _ | _ | _ | _
      · exact ⟨m2, rfl⟩
      · simp at h
      · simp at h
      · simp at h
      · simp at h
    · simp at h
  · have hcore : main_core d t env =
        (.error (.valueError ("Invalid action " ++ squote ++ env.action ++ squote)), []) := by
      unfold main_core
      rw [if_pos ⟨h1, h2⟩]
    unfold main_run
    rw [hcore]

/-- Witness for c7_validation_aborts: an invalid action, and a delete
iteration beyond the component list. -/
theorem c7_validation_aborts_witness :
    main_run decNone transportUrlError envBadAction = ⟨2, [], []⟩ ∧
    main_run decNone transportUrlError envDeleteOutOfRange = ⟨2, [], []⟩ := by
  refine ⟨(c7_validation_aborts decNone transportUrlError envBadAction
      ("Invalid action " ++ squote ++ "bogus" ++ squote)).1 rfl,
    (c7_validation_aborts decNone transportUrlError envDeleteOutOfRange
      "Iteration 9 out of range for component names (max: 1)").1 rfl⟩
